import Mathlib

/-!
Shallow embedding of `discord_audio_controller.py` (class `DiscordAudioController`)
from the repository `GMDProjectL/deafen-python`.

The external world (the `pactl` command-line tool invoked through
`subprocess.run(..., check=True)`) is modelled by an environment
`Env : List String → ExecOutcome` that maps every argument list to one of:
`ok stdout` (exit status 0), `exitFailure` (non-zero exit, which
`subprocess.run(check=True)` turns into `CalledProcessError`), or
`spawnError` (the process could not be started at all, e.g.
`FileNotFoundError`; this exception class is NOT caught by
`_run_command`).  An uncaught Python exception is modelled with
`Except Unit`: `.error ()` means the call raised.

Python `dict` records built by the parsers may lack keys, so every field of
`RawStream` is an `Option`; `none` models an absent key.

Python string operations are modelled on `List Char`
(`str.strip`, `str.split('\n')`, `str.lower`, `in`, `startswith`) so that
all definitions reduce in the kernel.
-/

/-- Outcome of spawning one external command. -/
inductive ExecOutcome where
  | ok (stdout : String)
  | exitFailure
  | spawnError
deriving DecidableEq, Repr

/-- The external world: what each concrete `pactl` invocation does. -/
abbrev Env := List String → ExecOutcome

/-- Characters removed by Python's default `str.strip()`. -/
def isPySpace (c : Char) : Bool :=
  c = ' ' || c = '\t' || c = '\n' || c = '\r' || c = '\x0b' || c = '\x0c'

/-- Python `str.strip()` on a character list. -/
def stripList (s : List Char) : List Char :=
  ((s.dropWhile isPySpace).reverse.dropWhile isPySpace).reverse

/-- Python `str.strip()`. -/
def pyStrip (s : String) : String := String.mk (stripList s.toList)

/-- Python `str.split('\n')` on a character list: splitting `""` yields `[[]]`. -/
def splitNlList (s : List Char) : List (List Char) :=
  s.foldr
    (fun c acc =>
      if c = '\n' then [] :: acc
      else
        match acc with
        | [] => [[c]]
        | g :: gs => (c :: g) :: gs)
    [[]]

/-- Python `str.split('\n')`. -/
def pySplitNl (s : String) : List String := (splitNlList s.toList).map String.mk

/-- Boolean list-prefix test. -/
def listPrefixOf : List Char → List Char → Bool
  | [], _ => true
  | _ :: _, [] => false
  | a :: as, b :: bs => a = b && listPrefixOf as bs

/-- Boolean list-infix test: `sub` occurs contiguously inside `s`. -/
def listInfixOf (sub : List Char) : List Char → Bool
  | [] => sub.isEmpty
  | c :: rest => listPrefixOf sub (c :: rest) || listInfixOf sub rest

/-- Python `sub in s` (substring containment). -/
def strContains (s sub : String) : Bool := listInfixOf sub.toList s.toList

/-- Python `s.startswith(p)`. -/
def pyStartsWith (s p : String) : Bool := listPrefixOf p.toList s.toList

/-- Python `str.lower()` (the strings in play are ASCII). -/
def pyLower (s : String) : String := String.mk (s.toList.map Char.toLower)

/-- Python falsiness of `str` / `Optional[str]`: `None` and `""` are falsy.
Models `if not stream_id` / `if not output` on values produced by `dict.get`. -/
def pyFalsy (o : Option String) : Bool :=
  match o with
  | none => true
  | some s => s.isEmpty

/-- Decimal digits to a number, as Python `int()` on a digit string. -/
def digitsToNat (ds : List Char) : Nat :=
  ds.foldl (fun n c => n * 10 + (c.toNat - '0'.toNat)) 0

/-- `re.search(r'#(\d+)', line)`: leftmost `#` that is followed by at least one
digit; the capture is the maximal digit run after it. -/
def searchHashDigits : List Char → Option String
  | [] => none
  | c :: rest =>
    if c = '#' then
      let digits := rest.takeWhile Char.isDigit
      if digits.isEmpty then searchHashDigits rest else some (String.mk digits)
    else searchHashDigits rest

/-- `re.search(r'application\.name = "([^"]*)"', line)`: leftmost occurrence of
the literal `application.name = "` that is followed by a closing quote; the
capture is everything strictly between the two quotes. -/
def searchAppName : List Char → Option String
  | [] => none
  | c :: rest =>
    if listPrefixOf ("application.name = \"".toList) (c :: rest) then
      let after := (c :: rest).drop ("application.name = \"".toList).length
      if after.any (fun ch => ch = '"') then
        some (String.mk (after.takeWhile (fun ch => ch ≠ '"')))
      else searchAppName rest
    else searchAppName rest

/-- `re.search(r'(\d+)%', line)`: leftmost maximal digit run that is immediately
followed by `%`; the capture is that run, converted by `int()`. -/
def searchVolume : List Char → Option Nat
  | c :: rest =>
    if c.isDigit then
      let run := (c :: rest).takeWhile Char.isDigit
      if ((c :: rest).drop run.length).head? = some '%' then some (digitsToNat run)
      else searchVolume rest
    else searchVolume rest
  | [] => none

/-- One parsed stream record; each field models one key of the Python dict
(`none` = key absent). `type` is `"sink-input"` or `"source-output"` when set
by the parsers. -/
structure RawStream where
  id : Option String
  type : Option String
  app_name : Option String
  muted : Option Bool
  volume : Option Nat
deriving DecidableEq, Repr

/-- The fresh `current_sink = {}` / `current_source = {}` dict. -/
def RawStream.emptyDict : RawStream := ⟨none, none, none, none, none⟩

/-- Python dict truthiness: `{}` is falsy, any dict with a key is truthy. -/
def RawStream.isEmptyDict (s : RawStream) : Bool :=
  s.id.isNone && s.type.isNone && s.app_name.isNone && s.muted.isNone && s.volume.isNone

/-- `_run_command`: `subprocess.run(command, capture_output=True, text=True,
check=True)`; returns `stdout` on success, `None` on `CalledProcessError`
(non-zero exit), and lets a spawn failure (e.g. `FileNotFoundError`) escape. -/
def run_command (env : Env) (command : List String) : Except Unit (Option String) :=
  match env command with
  | .ok stdout => .ok (some stdout)
  | .exitFailure => .ok none
  | .spawnError => .error ()

/-- Loop body of `_get_sink_inputs` over the split lines, together with the
trailing `if current_sink: sinks.append(current_sink)` flush. -/
def sink_inputs_loop : List String → RawStream → List RawStream
  | [], current => if current.isEmptyDict then [] else [current]
  | rawLine :: rest, current =>
    let line := pyStrip rawLine
    if pyStartsWith line "Sink Input #" then
      let flushed := if current.isEmptyDict then [] else [current]
      let sink_id := searchHashDigits line.toList
      flushed ++ sink_inputs_loop rest
        { RawStream.emptyDict with id := some (sink_id.getD ""), type := some "sink-input" }
    else if strContains line "application.name" then
      match searchAppName line.toList with
      | some v => sink_inputs_loop rest { current with app_name := some v }
      | none => sink_inputs_loop rest current
    else if pyStartsWith line "Mute:" then
      sink_inputs_loop rest { current with muted := some (strContains (pyLower line) "yes") }
    else if pyStartsWith line "Volume:" then
      match searchVolume line.toList with
      | some n => sink_inputs_loop rest { current with volume := some n }
      | none => sink_inputs_loop rest current
    else sink_inputs_loop rest current

/-- Pure part of `_get_sink_inputs`: parse the captured `pactl list sink-inputs`
output. -/
def parse_sink_inputs (output : String) : List RawStream :=
  sink_inputs_loop (pySplitNl output) RawStream.emptyDict

/-- `_get_sink_inputs`. -/
def get_sink_inputs (env : Env) : Except Unit (List RawStream) :=
  match run_command env ["pactl", "list", "sink-inputs"] with
  | .error e => .error e
  | .ok output =>
    if pyFalsy output then .ok [] else .ok (parse_sink_inputs (output.getD ""))

/-- Loop body of `_get_source_outputs` (same shape as the sink loop but without
the `Volume:` branch), plus the trailing flush. -/
def source_outputs_loop : List String → RawStream → List RawStream
  | [], current => if current.isEmptyDict then [] else [current]
  | rawLine :: rest, current =>
    let line := pyStrip rawLine
    if pyStartsWith line "Source Output #" then
      let flushed := if current.isEmptyDict then [] else [current]
      let source_id := searchHashDigits line.toList
      flushed ++ source_outputs_loop rest
        { RawStream.emptyDict with id := some (source_id.getD ""), type := some "source-output" }
    else if strContains line "application.name" then
      match searchAppName line.toList with
      | some v => source_outputs_loop rest { current with app_name := some v }
      | none => source_outputs_loop rest current
    else if pyStartsWith line "Mute:" then
      source_outputs_loop rest { current with muted := some (strContains (pyLower line) "yes") }
    else source_outputs_loop rest current

/-- Pure part of `_get_source_outputs`. -/
def parse_source_outputs (output : String) : List RawStream :=
  source_outputs_loop (pySplitNl output) RawStream.emptyDict

/-- `_get_source_outputs`. -/
def get_source_outputs (env : Env) : Except Unit (List RawStream) :=
  match run_command env ["pactl", "list", "source-outputs"] with
  | .error e => .error e
  | .ok output =>
    if pyFalsy output then .ok [] else .ok (parse_source_outputs (output.getD ""))

/-- `self.discord_patterns`, as set in `__init__` (regex strings used only as
plain substrings by `_find_discord_streams`). -/
def discord_patterns : List String :=
  ["WEBRTC VoiceEngine", "Discord", "discord", "playStream", "recStream"]

/-- The per-record test of `_find_discord_streams`: the inner
`for pattern in self.discord_patterns: if pattern.lower() in app_name: ... break`
loop over `app_name = stream.get("app_name", "").lower()`. -/
def matches_discord (stream : RawStream) : Bool :=
  let app_name := pyLower (stream.app_name.getD "")
  discord_patterns.any (fun pattern => strContains app_name (pyLower pattern))

/-- Pure part of `_find_discord_streams`, over
`all_streams = self._get_sink_inputs() + self._get_source_outputs()`. -/
def find_discord_streams_from (all_streams : List RawStream) : List RawStream :=
  all_streams.filter matches_discord

/-- `_find_discord_streams`. -/
def find_discord_streams (env : Env) : Except Unit (List RawStream) :=
  match get_sink_inputs env with
  | .error e => .error e
  | .ok sinks =>
    match get_source_outputs env with
    | .error e => .error e
    | .ok sources => .ok (find_discord_streams_from (sinks ++ sources))

/-- One entry of the `streams` list built by `get_status`. -/
structure StreamInfo where
  id : Option String
  type : String
  app_name : String
  muted : Bool
  volume : Option Nat
deriving DecidableEq, Repr

/-- The dict returned by `get_status`. -/
structure StatusResult where
  success : Bool
  found : Bool
  message : String
  streams : List StreamInfo
deriving DecidableEq, Repr

/-- `get_status`. -/
def get_status (env : Env) : Except Unit StatusResult :=
  match find_discord_streams env with
  | .error e => .error e
  | .ok discord_streams =>
    if discord_streams.isEmpty then
      .ok { success := true, found := false,
            message := "No Discord streams found", streams := [] }
    else
      .ok { success := true, found := true,
            message := "Found " ++ toString discord_streams.length ++ " Discord streams",
            streams := discord_streams.map (fun stream =>
              { id := stream.id,
                type := if stream.type == some "sink-input" then "playback" else "recording",
                app_name := stream.app_name.getD "Unknown",
                muted := stream.muted.getD false,
                volume := stream.volume }) }

/-- One per-stream result dict appended to `results` by `toggle_mute` /
`set_mute`. -/
structure StreamResult where
  id : String
  type : String
  app_name : String
  success : Bool
  action : String
deriving DecidableEq, Repr

/-- The summary dict returned by `toggle_mute` and `set_mute`.  The Python
code returns plain dicts whose key sets differ between the no-streams branch
and the main branch; `none` models an absent key. -/
structure Summary where
  success : Bool
  message : String
  action : Option String
  streams_affected : Nat
  total_streams : Option Nat
  results : Option (List StreamResult)
deriving DecidableEq, Repr

/-- The `{"success": False, "message": "No Discord streams found",
"streams_affected": 0}` dict that both `toggle_mute` and `set_mute` return
when no Discord streams are found (no `action`, `total_streams` or `results`
keys). -/
def noStreamsSummary : Summary :=
  { success := false, message := "No Discord streams found",
    action := none, streams_affected := 0, total_streams := none, results := none }

/-- The command (and `stream_desc`) the per-stream loop issues for one stream:
the `if not stream_id or not stream_type: continue` guard followed by the
`sink-input` / `source-output` dispatch; `none` means the stream is skipped
by a `continue`. -/
def stream_cmd (stream : RawStream) (target_state : String) :
    Option (List String × String) :=
  let stream_id := stream.id
  let stream_type := stream.type
  if pyFalsy stream_id || pyFalsy stream_type then none
  else
    match stream_type with
    | some "sink-input" =>
      some (["pactl", "set-sink-input-mute", stream_id.getD "", target_state], "playback")
    | some "source-output" =>
      some (["pactl", "set-source-output-mute", stream_id.getD "", target_state], "recording")
    | _ => none

/-- The per-stream `for stream in discord_streams:` loop that appears verbatim
in both `toggle_mute` (lines 166-196) and `set_mute` (lines 224-253).
Returns `(results, success_count, issued)` where `issued` is the sequence of
`pactl` commands actually passed to `_run_command` (the execution trace,
recorded for the theorems below). A `spawnError` on any issued command makes
the whole loop raise, as the uncaught Python exception would. -/
def mute_streams (env : Env) (target_state action : String) :
    List RawStream → Except Unit (List StreamResult × Nat × List (List String))
  | [] => .ok ([], 0, [])
  | stream :: restStreams =>
    match stream_cmd stream target_state with
    | none => mute_streams env target_state action restStreams
    | some (cmd, stream_desc) =>
      match run_command env cmd with
      | .error e => .error e
      | .ok result =>
        match mute_streams env target_state action restStreams with
        | .error e => .error e
        | .ok (results, success_count, issued) =>
          .ok ({ id := stream.id.getD "", type := stream_desc,
                 app_name := stream.app_name.getD "Unknown",
                 success := result.isSome, action := action } :: results,
               (if result.isSome then 1 else 0) + success_count,
               cmd :: issued)

/-- `set_mute`.  The second component of the returned pair is the issued
command trace from the per-stream loop. -/
def set_mute (env : Env) (mute : Bool) : Except Unit (Summary × List (List String)) :=
  match find_discord_streams env with
  | .error e => .error e
  | .ok discord_streams =>
    if discord_streams.isEmpty then .ok (noStreamsSummary, [])
    else
      let target_state := if mute then "1" else "0"
      let action := if mute then "muted" else "unmuted"
      match mute_streams env target_state action discord_streams with
      | .error e => .error e
      | .ok (results, success_count, issued) =>
        .ok ({ success := decide (0 < success_count),
               message := "Successfully " ++ action ++ " " ++ toString success_count ++
                          "/" ++ toString discord_streams.length ++ " streams",
               action := some action,
               streams_affected := success_count,
               total_streams := some discord_streams.length,
               results := some results }, issued)

/-- `toggle_mute`.  Identical to `set_mute` except that the target state is
derived from the first selected stream's `muted` flag
(`first_stream.get("muted", False)`). -/
def toggle_mute (env : Env) : Except Unit (Summary × List (List String)) :=
  match find_discord_streams env with
  | .error e => .error e
  | .ok discord_streams =>
    match discord_streams with
    | [] => .ok (noStreamsSummary, [])
    | first_stream :: _ =>
      let is_currently_muted := first_stream.muted.getD false
      let target_state := if is_currently_muted then "0" else "1"
      let action := if is_currently_muted then "unmuted" else "muted"
      match mute_streams env target_state action discord_streams with
      | .error e => .error e
      | .ok (results, success_count, issued) =>
        .ok ({ success := decide (0 < success_count),
               message := "Successfully " ++ action ++ " " ++ toString success_count ++
                          "/" ++ toString discord_streams.length ++ " streams",
               action := some action,
               streams_affected := success_count,
               total_streams := some discord_streams.length,
               results := some results }, issued)

/-! ### Characterization lemmas for the per-stream loop -/

/-- Whether the environment reports success (exit 0) for a command; on a
non-raising run this is exactly the `result is not None` test of the loop. -/
def cmdOk (env : Env) (cmd : List String) : Bool :=
  match env cmd with
  | .ok _ => true
  | _ => false

/-- The `StreamResult` the loop records for one stream (`none` when the stream
is skipped by the guard). -/
def resultOf (env : Env) (action target_state : String) (s : RawStream) :
    Option StreamResult :=
  (stream_cmd s target_state).map (fun cd =>
    { id := s.id.getD "", type := cd.2, app_name := s.app_name.getD "Unknown",
      success := cmdOk env cd.1, action := action })

/-- The command the loop issues for one stream (`none` when skipped). -/
def cmdOf (target_state : String) (s : RawStream) : Option (List String) :=
  (stream_cmd s target_state).map Prod.fst

/-! ### Parser record-count lemmas -/

/-- Is the (already stripped) line a sink-input record-start marker? -/
def sinkMarker (line : String) : Bool := pyStartsWith (pyStrip line) "Sink Input #"

/-- Is the (already stripped) line a source-output record-start marker? -/
def sourceMarker (line : String) : Bool := pyStartsWith (pyStrip line) "Source Output #"

/-- Number of record-start marker lines in a `pactl list sink-inputs` output. -/
def sinkMarkerCount (output : String) : Nat :=
  ((pySplitNl output).filter sinkMarker).length

/-- Number of record-start marker lines in a `pactl list source-outputs` output. -/
def sourceMarkerCount (output : String) : Nat :=
  ((pySplitNl output).filter sourceMarker).length

/-- Does a non-marker (stripped) line make the sink loop modify the current
dict? Mirrors the `elif` chain of `_get_sink_inputs`. -/
def sinkAssigns (line : String) : Bool :=
  if strContains line "application.name" then (searchAppName line.toList).isSome
  else if pyStartsWith line "Mute:" then true
  else if pyStartsWith line "Volume:" then (searchVolume line.toList).isSome
  else false

/-- Does a non-marker (stripped) line make the source loop modify the current
dict? Mirrors the `elif` chain of `_get_source_outputs`. -/
def sourceAssigns (line : String) : Bool :=
  if strContains line "application.name" then (searchAppName line.toList).isSome
  else if pyStartsWith line "Mute:" then true
  else false

/-! ### Concrete environments used as test fixtures -/

/-- `pactl` is not installed: every spawn attempt raises. -/
def envSpawnFail : Env := fun _ => .spawnError

/-- `pactl` exists but every invocation exits non-zero. -/
def envAllExitFail : Env := fun _ => .exitFailure

/-- The sink-input listing succeeds with one Discord record whose record-start
marker carries no digits (so its `id` parses to `""`); everything else exits
non-zero. -/
def envNoDigitsId : Env := fun cmd =>
  if cmd = ["pactl", "list", "sink-inputs"] then
    .ok "Sink Input #\n\tapplication.name = \"Discord\""
  else .exitFailure

/-- Both listings succeed, with one Discord playback stream (#3) and one
WEBRTC VoiceEngine recording stream (#9); every mute command exits non-zero. -/
def envDiscordPair : Env := fun cmd =>
  if cmd = ["pactl", "list", "sink-inputs"] then
    .ok "Sink Input #3\n\tapplication.name = \"Discord\"\n\tMute: no\n\tVolume: front-left: 65536 / 100% / 0.00 dB"
  else if cmd = ["pactl", "list", "source-outputs"] then
    .ok "Source Output #9\n\tapplication.name = \"WEBRTC VoiceEngine\"\n\tMute: yes"
  else .exitFailure

/-! ### C6 -/

/-- The claim's fixed pattern set, case-folded once (its wording). -/
def specPatterns : List String :=
  ["webrtc voiceengine", "discord", "playstream", "recstream"]

/-- Selection predicate as the claim words it: a record matches iff its
`appName` is present and, case-folded, contains some member of
`specPatterns` as a substring. -/
def specMatches (s : RawStream) : Bool :=
  match s.app_name with
  | none => false
  | some name => specPatterns.any (fun p => strContains (pyLower name) p)

/-- Like `envDiscordPair`, but the playback mute command succeeds while the
recording one still exits non-zero. -/
def envMixed : Env := fun cmd =>
  if cmd = ["pactl", "list", "sink-inputs"] then
    .ok "Sink Input #3\n\tapplication.name = \"Discord\"\n\tMute: no\n\tVolume: front-left: 65536 / 100% / 0.00 dB"
  else if cmd = ["pactl", "list", "source-outputs"] then
    .ok "Source Output #9\n\tapplication.name = \"WEBRTC VoiceEngine\"\n\tMute: yes"
  else if cmd = ["pactl", "set-sink-input-mute", "3", "1"] then .ok ""
  else .exitFailure

/-- The summary `set_mute envMixed true` produces: one of two streams muted. -/
def mixedSummary : Summary :=
  { success := true, message := "Successfully muted 1/2 streams",
    action := some "muted", streams_affected := 1, total_streams := some 2,
    results := some
      [{ id := "3", type := "playback", app_name := "Discord",
         success := true, action := "muted" },
       { id := "9", type := "recording", app_name := "WEBRTC VoiceEngine",
         success := false, action := "muted" }] }

/-- The status `get_status envDiscordPair` produces. -/
def pairStatus : StatusResult :=
  { success := true, found := true, message := "Found 2 Discord streams",
    streams :=
      [{ id := some "3", type := "playback", app_name := "Discord",
         muted := false, volume := some 100 },
       { id := some "9", type := "recording", app_name := "WEBRTC VoiceEngine",
         muted := true, volume := none }] }

theorem run_command_ok_isSome {env : Env} {cmd : List String} {result : Option String}
    (h : run_command env cmd = .ok result) : result.isSome = cmdOk env cmd := by
  unfold run_command at h
  unfold cmdOk
  cases henv : env cmd <;> rw [henv] at h <;> cases h <;> rfl

theorem mute_streams_ok {env : Env} {t a : String} :
    ∀ {streams : List RawStream} {results : List StreamResult} {n : Nat}
      {issued : List (List String)},
    mute_streams env t a streams = .ok (results, n, issued) →
    results = streams.filterMap (resultOf env a t) ∧
    issued = streams.filterMap (cmdOf t) ∧
    n = (results.filter (fun r => r.success)).length := by
  intro streams
  induction streams with
  | nil =>
    intro results n issued h
    unfold mute_streams at h
    cases h
    simp
  | cons s rest ih =>
    intro results n issued h
    unfold mute_streams at h
    cases hc : stream_cmd s t with
    | none =>
      rw [hc] at h
      rcases ih h with ⟨h1, h2, h3⟩
      refine ⟨?_, ?_, h3⟩
      · rw [List.filterMap_cons_none]
        · exact h1
        · unfold resultOf; rw [hc]; rfl
      · rw [List.filterMap_cons_none]
        · exact h2
        · unfold cmdOf; rw [hc]; rfl
    | some cd =>
      obtain ⟨cmd, stream_desc⟩ := cd
      rw [hc] at h
      dsimp only at h
      cases hrc : run_command env cmd with
      | error e => rw [hrc] at h; cases h
      | ok result =>
        rw [hrc] at h
        cases hrec : mute_streams env t a rest with
        | error e => rw [hrec] at h; cases h
        | ok triple =>
          obtain ⟨rs, m, cs⟩ := triple
          rw [hrec] at h
          cases h
          rcases ih hrec with ⟨h1, h2, h3⟩
          have hsucc : result.isSome = cmdOk env cmd := run_command_ok_isSome hrc
          have hres : resultOf env a t s =
              some { id := s.id.getD "", type := stream_desc,
                     app_name := s.app_name.getD "Unknown",
                     success := cmdOk env cmd, action := a } := by
            unfold resultOf; rw [hc]; rfl
          have hcmd : cmdOf t s = some cmd := by
            unfold cmdOf; rw [hc]; rfl
          refine ⟨?_, ?_, ?_⟩
          · simp [List.filterMap_cons, hres, hsucc, h1]
          · simp [List.filterMap_cons, hcmd, h2]
          · simp only [List.filter_cons, hsucc, h3]
            cases hok : cmdOk env cmd <;> simp [hok] <;> omega

theorem length_filterMap_isSome {α β : Type} (f : α → Option β) (l : List α) :
    (l.filterMap f).length = (l.filter (fun a => (f a).isSome)).length := by
  induction l with
  | nil => rfl
  | cons a l ih => cases hf : f a <;> simp [List.filterMap_cons, List.filter_cons, hf, ih]

theorem set_mute_empty {env : Env} (mute : Bool)
    (hf : find_discord_streams env = .ok []) :
    set_mute env mute = .ok (noStreamsSummary, []) := by
  unfold set_mute
  rw [hf]
  rfl

theorem toggle_mute_empty {env : Env}
    (hf : find_discord_streams env = .ok []) :
    toggle_mute env = .ok (noStreamsSummary, []) := by
  unfold toggle_mute
  rw [hf]

theorem set_mute_ok_nonempty {env : Env} {mute : Bool} {streams : List RawStream}
    {summary : Summary} {issued : List (List String)}
    (hf : find_discord_streams env = .ok streams) (hne : streams ≠ [])
    (h : set_mute env mute = .ok (summary, issued)) :
    ∃ results success_count,
      mute_streams env (if mute then "1" else "0")
          (if mute then "muted" else "unmuted") streams
        = .ok (results, success_count, issued) ∧
      summary =
        { success := decide (0 < success_count),
          message := "Successfully " ++ (if mute then "muted" else "unmuted") ++ " " ++
                     toString success_count ++ "/" ++ toString streams.length ++ " streams",
          action := some (if mute then "muted" else "unmuted"),
          streams_affected := success_count,
          total_streams := some streams.length,
          results := some results } := by
  unfold set_mute at h
  rw [hf] at h
  have hemp : streams.isEmpty = false := by
    cases streams with
    | nil => exact absurd rfl hne
    | cons a l => rfl
  simp only [hemp, if_false, Bool.false_eq_true] at h
  cases hm : mute_streams env (if mute then "1" else "0")
      (if mute then "muted" else "unmuted") streams with
  | error e => rw [hm] at h; cases h
  | ok triple =>
    obtain ⟨results, success_count, issued'⟩ := triple
    rw [hm] at h
    cases h
    exact ⟨results, success_count, rfl, rfl⟩

theorem toggle_mute_ok_nonempty {env : Env} {first : RawStream} {rest : List RawStream}
    {summary : Summary} {issued : List (List String)}
    (hf : find_discord_streams env = .ok (first :: rest))
    (h : toggle_mute env = .ok (summary, issued)) :
    ∃ results success_count,
      mute_streams env (if first.muted.getD false then "0" else "1")
          (if first.muted.getD false then "unmuted" else "muted") (first :: rest)
        = .ok (results, success_count, issued) ∧
      summary =
        { success := decide (0 < success_count),
          message := "Successfully " ++ (if first.muted.getD false then "unmuted" else "muted")
                     ++ " " ++ toString success_count ++ "/" ++
                     toString (first :: rest).length ++ " streams",
          action := some (if first.muted.getD false then "unmuted" else "muted"),
          streams_affected := success_count,
          total_streams := some (first :: rest).length,
          results := some results } := by
  unfold toggle_mute at h
  rw [hf] at h
  dsimp only at h
  cases hm : mute_streams env (if first.muted.getD false then "0" else "1")
      (if first.muted.getD false then "unmuted" else "muted") (first :: rest) with
  | error e => rw [hm] at h; cases h
  | ok triple =>
    obtain ⟨results, success_count, issued'⟩ := triple
    rw [hm] at h
    cases h
    exact ⟨results, success_count, rfl, rfl⟩

theorem isEmptyDict_some_id (x : String) (t an : Option String) (m : Option Bool)
    (v : Option Nat) : (RawStream.mk (some x) t an m v).isEmptyDict = false := rfl

theorem isEmptyDict_some_app (c : RawStream) (v : String) :
    ({ c with app_name := some v } : RawStream).isEmptyDict = false := by
  simp [RawStream.isEmptyDict]

theorem isEmptyDict_some_muted (c : RawStream) (b : Bool) :
    ({ c with muted := some b } : RawStream).isEmptyDict = false := by
  simp [RawStream.isEmptyDict]

theorem isEmptyDict_some_volume (c : RawStream) (n : Nat) :
    ({ c with volume := some n } : RawStream).isEmptyDict = false := by
  simp [RawStream.isEmptyDict]

theorem sink_loop_length_nonempty :
    ∀ (lines : List String) (current : RawStream), current.isEmptyDict = false →
    (sink_inputs_loop lines current).length = (lines.filter sinkMarker).length + 1 := by
  intro lines
  induction lines with
  | nil =>
    intro current h
    unfold sink_inputs_loop
    rw [h]
    rfl
  | cons rawLine rest ih =>
    intro current h
    unfold sink_inputs_loop
    by_cases hm : pyStartsWith (pyStrip rawLine) "Sink Input #"
    · simp [ih, hm, h, isEmptyDict_some_id, sinkMarker, List.filter_cons]
    · by_cases ha : strContains (pyStrip rawLine) "application.name"
      · cases hn : searchAppName (pyStrip rawLine).data with
        | none => simp [ih, hm, ha, hn, h, sinkMarker, List.filter_cons]
        | some v => simp [ih, hm, ha, hn, isEmptyDict_some_app, sinkMarker, List.filter_cons]
      · by_cases hmu : pyStartsWith (pyStrip rawLine) "Mute:"
        · simp [ih, hm, ha, hmu, isEmptyDict_some_muted, sinkMarker, List.filter_cons]
        · by_cases hv : pyStartsWith (pyStrip rawLine) "Volume:"
          · cases hn : searchVolume (pyStrip rawLine).data with
            | none => simp [ih, hm, ha, hmu, hv, hn, h, sinkMarker, List.filter_cons]
            | some n => simp [ih, hm, ha, hmu, hv, hn, isEmptyDict_some_volume, sinkMarker, List.filter_cons]
          · simp [ih, hm, ha, hmu, hv, h, sinkMarker, List.filter_cons]

theorem sink_loop_length_empty :
    ∀ (lines : List String),
    (∀ l ∈ lines.takeWhile (fun l => !sinkMarker l), sinkAssigns (pyStrip l) = false) →
    (sink_inputs_loop lines RawStream.emptyDict).length = (lines.filter sinkMarker).length := by
  intro lines
  induction lines with
  | nil => intro _; rfl
  | cons rawLine rest ih =>
    intro hclean
    unfold sink_inputs_loop
    by_cases hm : pyStartsWith (pyStrip rawLine) "Sink Input #"
    · simp [hm, show RawStream.emptyDict.isEmptyDict = true from rfl,
        sink_loop_length_nonempty, isEmptyDict_some_id, sinkMarker, List.filter_cons]
    · have hmem : rawLine ∈ (rawLine :: rest).takeWhile (fun l => !sinkMarker l) := by
        rw [List.takeWhile_cons_of_pos (by simp [sinkMarker, hm])]
        exact List.mem_cons_self _ _
      have hl : sinkAssigns (pyStrip rawLine) = false := hclean rawLine hmem
      have hclean' : ∀ l ∈ rest.takeWhile (fun l => !sinkMarker l),
          sinkAssigns (pyStrip l) = false := by
        intro l hl'
        refine hclean l ?_
        rw [List.takeWhile_cons_of_pos (by simp [sinkMarker, hm])]
        exact List.mem_cons_of_mem _ hl'
      by_cases ha : strContains (pyStrip rawLine) "application.name"
      · cases hn : searchAppName (pyStrip rawLine).data with
        | none => simp [hm, ha, hn, ih hclean', sinkMarker, List.filter_cons]
        | some v =>
          exfalso
          rw [sinkAssigns, if_pos ha] at hl
          rw [show (pyStrip rawLine).toList = (pyStrip rawLine).data from rfl, hn] at hl
          cases hl
      · by_cases hmu : pyStartsWith (pyStrip rawLine) "Mute:"
        · exfalso
          rw [sinkAssigns, if_neg (by simp [ha]), if_pos hmu] at hl
          cases hl
        · by_cases hv : pyStartsWith (pyStrip rawLine) "Volume:"
          · cases hn : searchVolume (pyStrip rawLine).data with
            | none => simp [hm, ha, hmu, hv, hn, ih hclean', sinkMarker, List.filter_cons]
            | some n =>
              exfalso
              rw [sinkAssigns, if_neg (by simp [ha]), if_neg (by simp [hmu]), if_pos hv] at hl
              rw [show (pyStrip rawLine).toList = (pyStrip rawLine).data from rfl, hn] at hl
              cases hl
          · simp [hm, ha, hmu, hv, ih hclean', sinkMarker, List.filter_cons]

theorem source_loop_length_nonempty :
    ∀ (lines : List String) (current : RawStream), current.isEmptyDict = false →
    (source_outputs_loop lines current).length = (lines.filter sourceMarker).length + 1 := by
  intro lines
  induction lines with
  | nil =>
    intro current h
    unfold source_outputs_loop
    rw [h]
    rfl
  | cons rawLine rest ih =>
    intro current h
    unfold source_outputs_loop
    by_cases hm : pyStartsWith (pyStrip rawLine) "Source Output #"
    · simp [ih, hm, h, isEmptyDict_some_id, sourceMarker, List.filter_cons]
    · by_cases ha : strContains (pyStrip rawLine) "application.name"
      · cases hn : searchAppName (pyStrip rawLine).data with
        | none => simp [ih, hm, ha, hn, h, sourceMarker, List.filter_cons]
        | some v => simp [ih, hm, ha, hn, isEmptyDict_some_app, sourceMarker, List.filter_cons]
      · by_cases hmu : pyStartsWith (pyStrip rawLine) "Mute:"
        · simp [ih, hm, ha, hmu, isEmptyDict_some_muted, sourceMarker, List.filter_cons]
        · simp [ih, hm, ha, hmu, h, sourceMarker, List.filter_cons]

theorem source_loop_length_empty :
    ∀ (lines : List String),
    (∀ l ∈ lines.takeWhile (fun l => !sourceMarker l), sourceAssigns (pyStrip l) = false) →
    (source_outputs_loop lines RawStream.emptyDict).length = (lines.filter sourceMarker).length := by
  intro lines
  induction lines with
  | nil => intro _; rfl
  | cons rawLine rest ih =>
    intro hclean
    unfold source_outputs_loop
    by_cases hm : pyStartsWith (pyStrip rawLine) "Source Output #"
    · simp [hm, show RawStream.emptyDict.isEmptyDict = true from rfl,
        source_loop_length_nonempty, isEmptyDict_some_id, sourceMarker, List.filter_cons]
    · have hmem : rawLine ∈ (rawLine :: rest).takeWhile (fun l => !sourceMarker l) := by
        rw [List.takeWhile_cons_of_pos (by simp [sourceMarker, hm])]
        exact List.mem_cons_self _ _
      have hl : sourceAssigns (pyStrip rawLine) = false := hclean rawLine hmem
      have hclean' : ∀ l ∈ rest.takeWhile (fun l => !sourceMarker l),
          sourceAssigns (pyStrip l) = false := by
        intro l hl'
        refine hclean l ?_
        rw [List.takeWhile_cons_of_pos (by simp [sourceMarker, hm])]
        exact List.mem_cons_of_mem _ hl'
      by_cases ha : strContains (pyStrip rawLine) "application.name"
      · cases hn : searchAppName (pyStrip rawLine).data with
        | none => simp [hm, ha, hn, ih hclean', sourceMarker, List.filter_cons]
        | some v =>
          exfalso
          rw [sourceAssigns, if_pos ha] at hl
          rw [show (pyStrip rawLine).toList = (pyStrip rawLine).data from rfl, hn] at hl
          cases hl
      · by_cases hmu : pyStartsWith (pyStrip rawLine) "Mute:"
        · exfalso
          rw [sourceAssigns, if_neg (by simp [ha]), if_pos hmu] at hl
          cases hl
        · simp [hm, ha, hmu, ih hclean', sourceMarker, List.filter_cons]

/-! ### C1 -/

/-- C1, counterexample: the claim says ANY execution failure (including "tool
not found") makes the listing operations return an empty sequence without
propagating an error; but when spawning `pactl` raises (tool not found),
`_run_command` does not catch it — both listing operations propagate the
exception instead of returning `[]`. -/
theorem c1_counterexample :
    get_sink_inputs envSpawnFail = .error () ∧
    get_source_outputs envSpawnFail = .error () := ⟨rfl, rfl⟩

/-- C1 (amended): only a non-zero exit (`CalledProcessError`) is swallowed
into an empty sequence; a spawn failure (tool not found or any other error
raised by `subprocess.run` itself) propagates out of the listing operations. -/
theorem c1_listing_failure_policy (env : Env) :
    (env ["pactl", "list", "sink-inputs"] = .exitFailure →
       get_sink_inputs env = .ok []) ∧
    (env ["pactl", "list", "source-outputs"] = .exitFailure →
       get_source_outputs env = .ok []) ∧
    (env ["pactl", "list", "sink-inputs"] = .spawnError →
       get_sink_inputs env = .error ()) ∧
    (env ["pactl", "list", "source-outputs"] = .spawnError →
       get_source_outputs env = .error ()) := by
  refine ⟨fun h => ?_, fun h => ?_, fun h => ?_, fun h => ?_⟩
  · unfold get_sink_inputs run_command; rw [h]; rfl
  · unfold get_source_outputs run_command; rw [h]; rfl
  · unfold get_sink_inputs run_command; rw [h]
  · unfold get_source_outputs run_command; rw [h]

/-- C1, witness: the amended theorem applied to concrete environments. -/
theorem c1_witness :
    get_sink_inputs envAllExitFail = .ok [] ∧
    get_source_outputs envAllExitFail = .ok [] ∧
    get_sink_inputs envSpawnFail = .error () ∧
    get_source_outputs envSpawnFail = .error () :=
  ⟨(c1_listing_failure_policy envAllExitFail).1 rfl,
   (c1_listing_failure_policy envAllExitFail).2.1 rfl,
   (c1_listing_failure_policy envSpawnFail).2.2.1 rfl,
   (c1_listing_failure_policy envSpawnFail).2.2.2 rfl⟩

/-! ### C3 -/

/-- C3, counterexample: on an empty selection the summary has `success=False`
and `streams_affected=0`, but there is NO `total_streams` key at all — the
claim's `total=0` is false (the dict would raise `KeyError` on that key). -/
theorem c3_counterexample :
    set_mute envAllExitFail true = .ok (noStreamsSummary, []) ∧
    noStreamsSummary.total_streams ≠ some 0 := ⟨rfl, by decide⟩

/-- C3 (amended): when the selection is empty, `set_mute` (either argument)
and `toggle_mute` return `success=false`, `streams_affected=0`, and a summary
that OMITS the `total_streams` key (as well as `action` and `results`) rather
than reporting `total=0`. -/
theorem c3_empty_selection (env : Env) (mute : Bool)
    (hf : find_discord_streams env = .ok []) :
    set_mute env mute = .ok (noStreamsSummary, []) ∧
    toggle_mute env = .ok (noStreamsSummary, []) ∧
    noStreamsSummary.success = false ∧
    noStreamsSummary.streams_affected = 0 ∧
    noStreamsSummary.total_streams = none ∧
    noStreamsSummary.action = none ∧
    noStreamsSummary.results = none :=
  ⟨set_mute_empty mute hf, toggle_mute_empty hf, rfl, rfl, rfl, rfl, rfl⟩

/-- C3, witness at a concrete environment with an empty selection. -/
theorem c3_witness :
    set_mute envAllExitFail false = .ok (noStreamsSummary, []) ∧
    toggle_mute envAllExitFail = .ok (noStreamsSummary, []) :=
  ⟨(c3_empty_selection envAllExitFail false rfl).1,
   (c3_empty_selection envAllExitFail false rfl).2.1⟩

/-! ### C10 -/

/-- C10: `get_status`, whenever it returns at all, returns `success=True` —
including when nothing matched (`found=false`) and when the listing commands
fail with non-zero exit, which is indistinguishable from an empty inventory. -/
theorem c10_get_status_always_success :
    (∀ (env : Env) (r : StatusResult), get_status env = .ok r → r.success = true) ∧
    (∀ env : Env, env ["pactl", "list", "sink-inputs"] = .exitFailure →
       env ["pactl", "list", "source-outputs"] = .exitFailure →
       get_status env = .ok { success := true, found := false,
                              message := "No Discord streams found", streams := [] }) := by
  constructor
  · intro env r h
    unfold get_status at h
    cases hf : find_discord_streams env with
    | error e => rw [hf] at h; cases h
    | ok streams =>
      rw [hf] at h
      dsimp only at h
      by_cases he : streams.isEmpty
      · rw [if_pos he] at h; cases h; rfl
      · rw [if_neg he] at h; cases h; rfl
  · intro env h1 h2
    have hf : find_discord_streams env = .ok [] := by
      unfold find_discord_streams get_sink_inputs get_source_outputs run_command
      rw [h1, h2]
      rfl
    unfold get_status
    rw [hf]
    rfl

/-- C10, witness: at an environment where both listings fail with non-zero
exit, `get_status` returns and its `success` field is `true`. -/
theorem c10_witness :
    get_status envAllExitFail =
      .ok { success := true, found := false,
            message := "No Discord streams found", streams := [] } ∧
    ({ success := true, found := false, message := "No Discord streams found",
       streams := [] } : StatusResult).success = true :=
  ⟨c10_get_status_always_success.2 envAllExitFail rfl rfl,
   c10_get_status_always_success.1 envAllExitFail _
     (c10_get_status_always_success.2 envAllExitFail rfl rfl)⟩

/-! ### C4 -/

/-- C4, counterexample: the output `"Mute: yes"` contains zero record-start
marker lines, yet both listing parsers return one record — a property line
before the first marker populates the initial empty dict, which the final
flush then appends. -/
theorem c4_counterexample :
    sinkMarkerCount "Mute: yes" = 0 ∧
    (parse_sink_inputs "Mute: yes").length = 1 ∧
    sourceMarkerCount "Mute: yes" = 0 ∧
    (parse_source_outputs "Mute: yes").length = 1 :=
  ⟨rfl, rfl, rfl, rfl⟩

/-- C4 (amended): for output with exactly N record-start marker lines the
parser returns exactly N records, regardless of intervening unrecognized
lines, PROVIDED no recognized property line (a matching `application.name`
line, a `Mute:` line, or — for the sink listing — a matching `Volume:` line)
precedes the first marker; such a line creates one extra leading record. -/
theorem c4_record_count :
    (∀ output : String,
       (∀ l ∈ (pySplitNl output).takeWhile (fun l => !sinkMarker l),
          sinkAssigns (pyStrip l) = false) →
       (parse_sink_inputs output).length = sinkMarkerCount output) ∧
    (∀ output : String,
       (∀ l ∈ (pySplitNl output).takeWhile (fun l => !sourceMarker l),
          sourceAssigns (pyStrip l) = false) →
       (parse_source_outputs output).length = sourceMarkerCount output) :=
  ⟨fun output h => sink_loop_length_empty (pySplitNl output) h,
   fun output h => source_loop_length_empty (pySplitNl output) h⟩

/-- C4, witness: a sink listing with two markers, an interleaved property
line and an unrecognized line parses to exactly two records; a source
listing with one marker parses to one record. -/
theorem c4_witness :
    (parse_sink_inputs "Sink Input #1\nMute: yes\ngarbage\nSink Input #2").length =
      sinkMarkerCount "Sink Input #1\nMute: yes\ngarbage\nSink Input #2" ∧
    sinkMarkerCount "Sink Input #1\nMute: yes\ngarbage\nSink Input #2" = 2 ∧
    (parse_source_outputs "noise\nSource Output #4\nMute: no").length =
      sourceMarkerCount "noise\nSource Output #4\nMute: no" ∧
    sourceMarkerCount "noise\nSource Output #4\nMute: no" = 1 :=
  ⟨c4_record_count.1 _ (by decide), rfl, c4_record_count.2 _ (by decide), rfl⟩

theorem matches_discord_eq_specMatches (s : RawStream) :
    matches_discord s = specMatches s := by
  cases han : s.app_name with
  | none =>
    unfold matches_discord specMatches
    rw [han]
    rfl
  | some name =>
    unfold matches_discord specMatches
    rw [han]
    have h1 : pyLower "WEBRTC VoiceEngine" = "webrtc voiceengine" := rfl
    have h2 : pyLower "Discord" = "discord" := rfl
    have h3 : pyLower "discord" = "discord" := rfl
    have h4 : pyLower "playStream" = "playstream" := rfl
    have h5 : pyLower "recStream" = "recstream" := rfl
    simp only [discord_patterns, specPatterns, List.any_cons, List.any_nil,
      h1, h2, h3, h4, h5, Option.getD_some]
    simp [Bool.or_self_left]

/-- C6: `_find_discord_streams` keeps exactly the records of
`sink inputs ++ source outputs` (playback first, relative order preserved)
whose case-folded `appName` contains a member of the case-folded pattern set
`{"webrtc voiceengine", "discord", "playstream", "recstream"}`; records with
absent `appName` are excluded, and matching is case-insensitive. -/
theorem c6_selection (sinks sources : List RawStream) :
    find_discord_streams_from (sinks ++ sources) =
      sinks.filter specMatches ++ sources.filter specMatches ∧
    specMatches ⟨some "1", some "sink-input", some "WEBRTC VoiceEngine", none, none⟩ = true ∧
    specMatches ⟨some "1", some "sink-input", some "webrtc voiceengine", none, none⟩ = true ∧
    specMatches ⟨some "2", some "sink-input", some "Spotify", none, none⟩ = false ∧
    specMatches ⟨some "3", some "source-output", none, none, none⟩ = false := by
  refine ⟨?_, rfl, rfl, rfl, rfl⟩
  unfold find_discord_streams_from
  rw [List.filter_congr (fun s _ => matches_discord_eq_specMatches s), List.filter_append]

/-! ### Facts about the per-stream guard and dispatch -/

theorem stream_cmd_sink {s : RawStream} (t : String) (ht : s.type = some "sink-input")
    (hid : pyFalsy s.id = false) :
    stream_cmd s t = some (["pactl", "set-sink-input-mute", s.id.getD "", t], "playback") := by
  unfold stream_cmd
  rw [ht]
  dsimp only
  rw [hid]
  rfl

theorem stream_cmd_source {s : RawStream} (t : String) (ht : s.type = some "source-output")
    (hid : pyFalsy s.id = false) :
    stream_cmd s t = some (["pactl", "set-source-output-mute", s.id.getD "", t], "recording") := by
  unfold stream_cmd
  rw [ht]
  dsimp only
  rw [hid]
  rfl

theorem stream_cmd_skip (s : RawStream) (t : String)
    (h : pyFalsy s.id = true ∨ pyFalsy s.type = true ∨
         (s.type ≠ some "sink-input" ∧ s.type ≠ some "source-output")) :
    stream_cmd s t = none := by
  unfold stream_cmd
  by_cases hg : (pyFalsy s.id || pyFalsy s.type) = true
  · simp [hg]
  · rcases h with h | h | ⟨h1, h2⟩
    · exact absurd (by simp [h]) hg
    · exact absurd (by simp [h]) hg
    · rw [if_neg hg]
      split
      · rename_i heq; exact absurd heq h1
      · rename_i heq; exact absurd heq h2
      · rfl

theorem resultOf_action {env : Env} {a t : String} {s : RawStream} {res : StreamResult}
    (h : resultOf env a t s = some res) : res.action = a := by
  unfold resultOf at h
  cases hc : stream_cmd s t with
  | none => rw [hc] at h; cases h
  | some cd => rw [hc] at h; cases h; rfl

theorem resultOf_success {env : Env} {a t : String} {s : RawStream} {c : List String}
    {res : StreamResult} (hc : cmdOf t s = some c) (h : resultOf env a t s = some res) :
    res.success = cmdOk env c := by
  unfold cmdOf at hc
  unfold resultOf at h
  cases hsc : stream_cmd s t with
  | none => rw [hsc] at h; cases h
  | some cd =>
    rw [hsc] at hc h
    cases hc
    cases h
    rfl

theorem cmdOf_shape {t : String} {s : RawStream} {c : List String}
    (hc : cmdOf t s = some c) : c.getLast? = some t ∧ c.head? = some "pactl" := by
  unfold cmdOf at hc
  cases hsc : stream_cmd s t with
  | none => rw [hsc] at hc; cases hc
  | some cd =>
    rw [hsc] at hc
    cases hc
    unfold stream_cmd at hsc
    by_cases hg : (pyFalsy s.id || pyFalsy s.type) = true
    · rw [if_pos hg] at hsc; cases hsc
    · rw [if_neg hg] at hsc
      revert hsc
      split
      · intro hsc; cases hsc; exact ⟨rfl, rfl⟩
      · intro hsc; cases hsc; exact ⟨rfl, rfl⟩
      · intro hsc; cases hsc

theorem resultOf_isSome (env : Env) (a t : String) (s : RawStream) :
    (resultOf env a t s).isSome = (stream_cmd s t).isSome := by
  unfold resultOf
  cases stream_cmd s t <;> rfl

theorem cmdOf_isSome (t : String) (s : RawStream) :
    (cmdOf t s).isSome = (stream_cmd s t).isSome := by
  unfold cmdOf
  cases stream_cmd s t <;> rfl

/-! ### C2 -/

/-- C2, counterexample: a selection can contain a stream whose id parsed to
`""` (record-start marker with no digits). `set_mute` over this non-empty
one-stream selection issues ZERO commands and records ZERO results — not
"exactly one per selected stream" as claimed. -/
theorem c2_counterexample :
    find_discord_streams envNoDigitsId =
      .ok [⟨some "", some "sink-input", some "Discord", none, none⟩] ∧
    set_mute envNoDigitsId true =
      .ok ({ success := false, message := "Successfully muted 0/1 streams",
             action := some "muted", streams_affected := 0,
             total_streams := some 1, results := some [] }, []) :=
  ⟨rfl, rfl⟩

/-- C2 (amended): for a non-empty selection, `set_mute` issues exactly one
mute-set command and records exactly one result per selected stream that
passes the guard (truthy id and recognized type) — the playback command
variant for `sink-input` records and the recording variant for
`source-output` records, with the `"1"`/`"0"` argument matching the target
state; `succeeded` is true iff that invocation did not fail with non-zero
exit, and such a failure does not abort the remaining streams (the loop
still returns normally). Guard-failing streams get no command and no result. -/
theorem c2_per_stream_commands (env : Env) (mute : Bool) (streams : List RawStream)
    (summary : Summary) (issued : List (List String))
    (hf : find_discord_streams env = .ok streams) (hne : streams ≠ [])
    (h : set_mute env mute = .ok (summary, issued)) :
    issued = streams.filterMap (cmdOf (if mute then "1" else "0")) ∧
    summary.results = some (streams.filterMap
      (resultOf env (if mute then "muted" else "unmuted") (if mute then "1" else "0"))) ∧
    (∀ s ∈ streams, pyFalsy s.id = false → s.type = some "sink-input" →
       cmdOf (if mute then "1" else "0") s =
         some ["pactl", "set-sink-input-mute", s.id.getD "", if mute then "1" else "0"]) ∧
    (∀ s ∈ streams, pyFalsy s.id = false → s.type = some "source-output" →
       cmdOf (if mute then "1" else "0") s =
         some ["pactl", "set-source-output-mute", s.id.getD "", if mute then "1" else "0"]) ∧
    (∀ (s : RawStream) (c : List String) (res : StreamResult),
       cmdOf (if mute then "1" else "0") s = some c →
       resultOf env (if mute then "muted" else "unmuted") (if mute then "1" else "0") s
         = some res →
       (res.success = true ↔ cmdOk env c = true)) := by
  obtain ⟨results, success_count, hm, hsum⟩ := set_mute_ok_nonempty hf hne h
  obtain ⟨hres, hiss, hcnt⟩ := mute_streams_ok hm
  subst hsum
  refine ⟨hiss, by rw [hres], ?_, ?_, ?_⟩
  · intro s _ hid ht
    unfold cmdOf
    rw [stream_cmd_sink _ ht hid]
    rfl
  · intro s _ hid ht
    unfold cmdOf
    rw [stream_cmd_source _ ht hid]
    rfl
  · intro s c res hc hr
    rw [resultOf_success hc hr]

/-- C2, witness: at `envDiscordPair` both mute invocations exit non-zero;
exactly one command and one `succeeded=false` result is produced per stream,
and the loop completes. -/
theorem c2_witness :
    ([["pactl", "set-sink-input-mute", "3", "1"],
      ["pactl", "set-source-output-mute", "9", "1"]] : List (List String)) =
      ([⟨some "3", some "sink-input", some "Discord", some false, some 100⟩,
        ⟨some "9", some "source-output", some "WEBRTC VoiceEngine", some true, none⟩]
         : List RawStream).filterMap (cmdOf (if true then "1" else "0")) :=
  (c2_per_stream_commands envDiscordPair true
    [⟨some "3", some "sink-input", some "Discord", some false, some 100⟩,
     ⟨some "9", some "source-output", some "WEBRTC VoiceEngine", some true, none⟩]
    { success := false, message := "Successfully muted 0/2 streams",
      action := some "muted", streams_affected := 0, total_streams := some 2,
      results := some
        [{ id := "3", type := "playback", app_name := "Discord",
           success := false, action := "muted" },
         { id := "9", type := "recording", app_name := "WEBRTC VoiceEngine",
           success := false, action := "muted" }] }
    [["pactl", "set-sink-input-mute", "3", "1"],
     ["pactl", "set-source-output-mute", "9", "1"]]
    rfl (by decide) rfl).1

/-! ### C5 -/

/-- C5: for a non-empty selection, `toggle_mute` derives ONE uniform target
state — the negation of the FIRST selected stream's `muted` flag (default
`false` when unobserved) — and every command it issues carries that same
`"1"`/`"0"` argument (in particular, when the first stream is unmuted, every
commanded stream gets `"1"`, even if individually already muted); the action
label on the summary and on every per-stream result is uniformly `"muted"`
(resp. `"unmuted"`). -/
theorem c5_toggle_uniform_target (env : Env) (first : RawStream)
    (rest : List RawStream) (summary : Summary) (issued : List (List String))
    (hf : find_discord_streams env = .ok (first :: rest))
    (h : toggle_mute env = .ok (summary, issued)) :
    issued = (first :: rest).filterMap
      (cmdOf (if first.muted.getD false then "0" else "1")) ∧
    (∀ c ∈ issued, c.getLast? = some (if first.muted.getD false then "0" else "1")) ∧
    summary.action = some (if first.muted.getD false then "unmuted" else "muted") ∧
    (∀ rs, summary.results = some rs →
       ∀ res ∈ rs, res.action = (if first.muted.getD false then "unmuted" else "muted")) := by
  obtain ⟨results, success_count, hm, hsum⟩ := toggle_mute_ok_nonempty hf h
  obtain ⟨hres, hiss, hcnt⟩ := mute_streams_ok hm
  subst hsum
  refine ⟨hiss, ?_, rfl, ?_⟩
  · intro c hc
    rw [hiss] at hc
    obtain ⟨s, _, hcmd⟩ := List.mem_filterMap.mp hc
    exact (cmdOf_shape hcmd).1
  · intro rs hrs res hmem
    cases hrs
    rw [hres] at hmem
    obtain ⟨s, _, hr⟩ := List.mem_filterMap.mp hmem
    exact resultOf_action hr

/-- C5, witness: at `envDiscordPair` the first selected stream is unmuted, so
both streams — including the already-muted recording stream #9 — are
commanded with argument `"1"`. -/
theorem c5_witness :
    ([["pactl", "set-sink-input-mute", "3", "1"],
      ["pactl", "set-source-output-mute", "9", "1"]] : List (List String)) =
      ([⟨some "3", some "sink-input", some "Discord", some false, some 100⟩,
        ⟨some "9", some "source-output", some "WEBRTC VoiceEngine", some true, none⟩]
         : List RawStream).filterMap
        (cmdOf (if (false : Bool) then "0" else "1")) ∧
    (∀ c ∈ ([["pactl", "set-sink-input-mute", "3", "1"],
             ["pactl", "set-source-output-mute", "9", "1"]] : List (List String)),
       c.getLast? = some (if (false : Bool) then "0" else "1")) := by
  have h := c5_toggle_uniform_target envDiscordPair
    ⟨some "3", some "sink-input", some "Discord", some false, some 100⟩
    [⟨some "9", some "source-output", some "WEBRTC VoiceEngine", some true, none⟩]
    { success := false, message := "Successfully muted 0/2 streams",
      action := some "muted", streams_affected := 0, total_streams := some 2,
      results := some
        [{ id := "3", type := "playback", app_name := "Discord",
           success := false, action := "muted" },
         { id := "9", type := "recording", app_name := "WEBRTC VoiceEngine",
           success := false, action := "muted" }] }
    [["pactl", "set-sink-input-mute", "3", "1"],
     ["pactl", "set-source-output-mute", "9", "1"]]
    rfl rfl
  exact ⟨h.1, h.2.1⟩

/-! ### C7 -/

/-- C7, counterexample: the empty-selection summary has NO `total_streams`
value at all, so "affected ≤ total" does not hold of every returned summary
as the claim states — there is no total to compare against. -/
theorem c7_counterexample :
    toggle_mute envAllExitFail = .ok (noStreamsSummary, []) ∧
    ¬ ∃ t, noStreamsSummary.total_streams = some t := by
  refine ⟨rfl, ?_⟩
  rintro ⟨t, ht⟩
  cases ht

/-- C7 (amended): every summary returned by `set_mute` or `toggle_mute`
satisfies: `success` is true iff `streams_affected > 0`; whenever the
`results` key is present, `streams_affected` equals the number of results
with `succeeded=true`; whenever the `total_streams` key is present,
`streams_affected ≤ total_streams`; and when `total_streams` is absent
(empty selection), `streams_affected = 0`. -/
theorem c7_summary_invariants (env : Env) (summary : Summary)
    (issued : List (List String))
    (h : (∃ mute, set_mute env mute = .ok (summary, issued)) ∨
         toggle_mute env = .ok (summary, issued)) :
    (summary.success = true ↔ 0 < summary.streams_affected) ∧
    (∀ rs, summary.results = some rs →
       summary.streams_affected = (rs.filter (fun r => r.success)).length) ∧
    (∀ t, summary.total_streams = some t → summary.streams_affected ≤ t) ∧
    (summary.total_streams = none → summary.streams_affected = 0) := by
  have main : ∀ (t a : String) (streams : List RawStream) results success_count,
      mute_streams env t a streams = .ok (results, success_count, issued) →
      let s : Summary :=
        { success := decide (0 < success_count),
          message := "Successfully " ++ a ++ " " ++ toString success_count ++ "/" ++
                     toString streams.length ++ " streams",
          action := some a, streams_affected := success_count,
          total_streams := some streams.length, results := some results }
      (s.success = true ↔ 0 < s.streams_affected) ∧
      (∀ rs, s.results = some rs →
         s.streams_affected = (rs.filter (fun r => r.success)).length) ∧
      (∀ n, s.total_streams = some n → s.streams_affected ≤ n) ∧
      (s.total_streams = none → s.streams_affected = 0) := by
    intro t a streams results success_count hm
    obtain ⟨hres, hiss, hcnt⟩ := mute_streams_ok hm
    refine ⟨by simp, ?_, ?_, ?_⟩
    · intro rs hrs
      cases hrs
      exact hcnt
    · intro n hn
      cases hn
      calc success_count = (results.filter (fun r => r.success)).length := hcnt
        _ ≤ results.length := List.length_filter_le _ _
        _ = (streams.filterMap (resultOf env a t)).length := by rw [hres]
        _ ≤ streams.length := List.length_filterMap_le _ _
    · intro hn
      cases hn
  rcases h with ⟨mute, h⟩ | h
  · cases hfind : find_discord_streams env with
    | error e =>
      exfalso
      unfold set_mute at h
      rw [hfind] at h
      cases h
    | ok streams =>
      cases streams with
      | nil =>
        have := set_mute_empty mute hfind
        rw [this] at h
        cases h
        refine ⟨by simp [noStreamsSummary], ?_, ?_, fun _ => rfl⟩
        · intro rs hrs; cases hrs
        · intro n hn; cases hn
      | cons first rest =>
        obtain ⟨results, success_count, hm, hsum⟩ :=
          set_mute_ok_nonempty hfind (by simp) h
        subst hsum
        exact main _ _ (first :: rest) results success_count hm
  · cases hfind : find_discord_streams env with
    | error e =>
      exfalso
      unfold toggle_mute at h
      rw [hfind] at h
      cases h
    | ok streams =>
      cases streams with
      | nil =>
        have := toggle_mute_empty hfind
        rw [this] at h
        cases h
        refine ⟨by simp [noStreamsSummary], ?_, ?_, fun _ => rfl⟩
        · intro rs hrs; cases hrs
        · intro n hn; cases hn
      | cons first rest =>
        obtain ⟨results, success_count, hm, hsum⟩ := toggle_mute_ok_nonempty hfind h
        subst hsum
        exact main _ _ (first :: rest) results success_count hm

/-- C7, witness: at `envMixed`, `set_mute true` affects 1 of 2 streams;
the invariants hold there: `success=true ↔ 0 < 1`. -/
theorem c7_witness :
    mixedSummary.success = true ↔ 0 < mixedSummary.streams_affected :=
  (c7_summary_invariants envMixed mixedSummary
    [["pactl", "set-sink-input-mute", "3", "1"],
     ["pactl", "set-source-output-mute", "9", "1"]]
    (Or.inl ⟨true, rfl⟩)).1

/-! ### C8 -/

/-- C8: `get_status` returns `found=false` with the fixed
"No Discord streams found" message and an empty `streams` list when the
selection is empty; otherwise `found=true` with one display record per
selected stream — `type` rendered `"playback"` for `sink-input` records and
`"recording"` for `source-output` records, `app_name` defaulting to
`"Unknown"` when absent (and reproduced verbatim when present). -/
theorem c8_get_status_shape (env : Env) (streams : List RawStream) (r : StatusResult)
    (hf : find_discord_streams env = .ok streams) (h : get_status env = .ok r) :
    (streams = [] →
       r = { success := true, found := false,
             message := "No Discord streams found", streams := [] }) ∧
    (streams ≠ [] → r.found = true ∧ r.streams.length = streams.length ∧
      (∀ i s, streams.get? i = some s →
        ∃ d, r.streams.get? i = some d ∧
          (s.type = some "sink-input" → d.type = "playback") ∧
          (s.type = some "source-output" → d.type = "recording") ∧
          (s.app_name = none → d.app_name = "Unknown") ∧
          (∀ a, s.app_name = some a → d.app_name = a) ∧
          d.id = s.id ∧ d.muted = s.muted.getD false ∧ d.volume = s.volume)) := by
  unfold get_status at h
  rw [hf] at h
  dsimp only at h
  by_cases he : streams.isEmpty
  · rw [if_pos he] at h
    cases h
    exact ⟨fun _ => rfl, fun hne => absurd (List.isEmpty_iff.mp he) hne⟩
  · rw [if_neg he] at h
    cases h
    refine ⟨fun hemp => absurd (by simp [hemp]) he, fun _ => ⟨rfl, by simp, ?_⟩⟩
    intro i s hs
    refine ⟨{ id := s.id,
              type := if s.type == some "sink-input" then "playback" else "recording",
              app_name := s.app_name.getD "Unknown",
              muted := s.muted.getD false, volume := s.volume },
            ?_, ?_, ?_, ?_, ?_, rfl, rfl, rfl⟩
    · rw [List.get?_map, hs]; rfl
    · intro ht; rw [ht]; rfl
    · intro ht; rw [ht]; rfl
    · intro ha; rw [ha]; rfl
    · intro a ha; rw [ha]; rfl

/-- C8, witness: at `envDiscordPair` the status is `found=true` with one
display record per selected stream. -/
theorem c8_witness : pairStatus.found = true ∧ pairStatus.streams.length = 2 :=
  have h := (c8_get_status_shape envDiscordPair
    [⟨some "3", some "sink-input", some "Discord", some false, some 100⟩,
     ⟨some "9", some "source-output", some "WEBRTC VoiceEngine", some true, none⟩]
    pairStatus rfl rfl).2 (by decide)
  ⟨h.1, h.2.1.trans rfl⟩

/-! ### C9 -/

theorem mute_streams_lengths {env : Env} {t a : String} {streams : List RawStream}
    {results : List StreamResult} {n : Nat} {issued : List (List String)}
    (hm : mute_streams env t a streams = .ok (results, n, issued)) :
    results.length = (streams.filter (fun s => (stream_cmd s t).isSome)).length ∧
    issued.length = results.length := by
  obtain ⟨hres, hiss, -⟩ := mute_streams_ok hm
  constructor
  · rw [hres, length_filterMap_isSome]
    congr 1
    apply List.filter_congr
    intro s _
    exact resultOf_isSome env a t s
  · rw [hres, hiss, length_filterMap_isSome, length_filterMap_isSome]
    congr 1
    apply List.filter_congr
    intro s _
    rw [cmdOf_isSome, resultOf_isSome]

/-- C9: in `set_mute` and `toggle_mute`, a selected stream whose id is `""`
(or absent) or whose type is missing/unrecognized is silently skipped — no
command issued, no result recorded — while still being counted in
`total_streams`; consequently `results` can be strictly shorter than
`total_streams` (witnessed at `envNoDigitsId`). -/
theorem c9_skipped_streams :
    (∀ (s : RawStream) (t : String),
       pyFalsy s.id = true ∨ pyFalsy s.type = true ∨
         (s.type ≠ some "sink-input" ∧ s.type ≠ some "source-output") →
       stream_cmd s t = none) ∧
    (∀ (env : Env) (mute : Bool) (streams : List RawStream) (summary : Summary)
       (issued : List (List String)),
       find_discord_streams env = .ok streams →
       set_mute env mute = .ok (summary, issued) → streams ≠ [] →
       summary.total_streams = some streams.length ∧
       ∃ rs, summary.results = some rs ∧
         rs.length = (streams.filter
           (fun s => (stream_cmd s (if mute then "1" else "0")).isSome)).length ∧
         issued.length = rs.length) ∧
    (∀ (env : Env) (first : RawStream) (rest : List RawStream) (summary : Summary)
       (issued : List (List String)),
       find_discord_streams env = .ok (first :: rest) →
       toggle_mute env = .ok (summary, issued) →
       summary.total_streams = some (first :: rest).length ∧
       ∃ rs, summary.results = some rs ∧
         rs.length = ((first :: rest).filter
           (fun s => (stream_cmd s (if first.muted.getD false then "0" else "1")).isSome)).length ∧
         issued.length = rs.length) ∧
    (∃ (summary : Summary) (issued : List (List String)) (rs : List StreamResult),
       set_mute envNoDigitsId true = .ok (summary, issued) ∧
       summary.results = some rs ∧ summary.total_streams = some 1 ∧ rs.length = 0) := by
  refine ⟨stream_cmd_skip, ?_, ?_, ?_⟩
  · intro env mute streams summary issued hf h hne
    obtain ⟨results, success_count, hm, hsum⟩ := set_mute_ok_nonempty hf hne h
    subst hsum
    obtain ⟨hlen, hcmds⟩ := mute_streams_lengths hm
    exact ⟨rfl, results, rfl, hlen, hcmds⟩
  · intro env first rest summary issued hf h
    obtain ⟨results, success_count, hm, hsum⟩ := toggle_mute_ok_nonempty hf h
    subst hsum
    obtain ⟨hlen, hcmds⟩ := mute_streams_lengths hm
    exact ⟨rfl, results, rfl, hlen, hcmds⟩
  · exact ⟨{ success := false, message := "Successfully muted 0/1 streams",
             action := some "muted", streams_affected := 0,
             total_streams := some 1, results := some [] }, [], [],
           rfl, rfl, rfl, rfl⟩

/-- C9, witness: the skip guard applied to the concrete empty-id stream of
`envNoDigitsId`, and the per-operation count facts at that environment. -/
theorem c9_witness :
    stream_cmd ⟨some "", some "sink-input", some "Discord", none, none⟩ "1" = none ∧
    ({ success := false, message := "Successfully muted 0/1 streams",
       action := some "muted", streams_affected := 0,
       total_streams := some 1, results := some [] } : Summary).total_streams = some 1 :=
  ⟨c9_skipped_streams.1 ⟨some "", some "sink-input", some "Discord", none, none⟩ "1"
     (Or.inl rfl),
   (c9_skipped_streams.2.1 envNoDigitsId true
     [⟨some "", some "sink-input", some "Discord", none, none⟩]
     { success := false, message := "Successfully muted 0/1 streams",
       action := some "muted", streams_affected := 0,
       total_streams := some 1, results := some [] }
     [] rfl rfl (by decide)).1⟩

/-- C5, counterexample: with a non-empty selection consisting of one stream
whose id parsed to `""`, `toggle_mute` commands NO stream at all — the
claim's "drives every selected stream" fails for guard-skipped streams. -/
theorem c5_counterexample :
    find_discord_streams envNoDigitsId =
      .ok [⟨some "", some "sink-input", some "Discord", none, none⟩] ∧
    toggle_mute envNoDigitsId =
      .ok ({ success := false, message := "Successfully muted 0/1 streams",
             action := some "muted", streams_affected := 0,
             total_streams := some 1, results := some [] }, []) :=
  ⟨rfl, rfl⟩
